import Mathlib

/-!
# Foam::mappedPatchBase — target resolution and the lazily built mapping

A shallow embedding of the inline members of `mappedPatchBase`
(`mappedPatchBaseI.H`) and of the data they act on (`mappedPatchBase.H`).

* The C++ object is the record `mappedPatchBase`; its `mutable` members are
  updated by explicit state passing.
* `patch_` is a `const polyPatch&`: what it refers to (the patch, its owning
  mesh, the registry of meshes) is not owned by the object and is read through
  a `World`.
* Members that are declared in the header but defined in files that are not
  among the files covered here (`coupleGroupIdentifier::findOtherPatchID`,
  `calcMapping`, `samplePolyPatch`, the registry lookup) are fields of `World`.
* `FatalErrorInFunction ... exit(FatalError)` ends the call: the result of a
  member is an `Except FatalError`.
* Every member returns an `Outcome`: the collaborators it invoked, in order,
  and either the fatal error or the returned value with the object afterwards.
-/

namespace Foam

/-! ## Data model (`mappedPatchBase.H`) -/

/-- Mesh items to sample: the enumeration `mappedPatchBase::sampleMode`. -/
inductive sampleMode where
  | NEARESTCELL
  | NEARESTPATCHFACE
  | NEARESTPATCHFACEAMI
  | PATCHTOPATCH
  | NEARESTFACE
  deriving DecidableEq, Repr

/-- How to project face centres: the enumeration `mappedPatchBase::offsetMode`. -/
inductive offsetMode where
  | NONE
  | NORMAL
  | DIRECTION
  deriving DecidableEq, Repr

/-- Scalars are rationals here: exact arithmetic, no rounding. -/
abbrev scalar := ℚ

/-- The three components of a `Foam::vector`. -/
structure vector where
  x : scalar
  y : scalar
  z : scalar
  deriving DecidableEq

/-- Component-wise sum of two vectors. -/
def vector.add (a b : vector) : vector :=
  ⟨a.x + b.x, a.y + b.y, a.z + b.z⟩

/-- Component-wise difference of two vectors. -/
def vector.sub (a b : vector) : vector :=
  ⟨a.x - b.x, a.y - b.y, a.z - b.z⟩

/-- Scalar multiple of a vector. -/
def vector.scale (d : scalar) (a : vector) : vector :=
  ⟨d * a.x, d * a.y, d * a.z⟩

/-- A `Foam::label` is a signed machine integer. -/
abbrev label := Int

/-- A `Foam::word` is a string. -/
abbrev word := String

/-- What the members read of a `polyPatch`: its name and whether its run-time
type is a `mappedPatchBase` (the test `isA<mappedPatchBase>`). -/
structure polyPatch where
  name : word
  isMappedPatchBase : Bool
  deriving DecidableEq, Repr

/-- What the members read of a `polyMesh`: its name and its boundary, the
list of its patches. -/
structure polyMesh where
  name : word
  boundaryMesh : List polyPatch
  deriving DecidableEq, Repr

/-- The identifier of a couple group. `valid()` is declared in
`coupleGroupIdentifier.H`, which lies outside the files covered here, so its
value is carried next to the name. -/
structure coupleGroupIdentifier where
  name : word
  valid : Bool
  deriving DecidableEq, Repr

/-- The parallel distribution map: send and receive schedules. -/
structure distributionMap where
  constructSize : label
  subMap : List (List label)
  constructMap : List (List label)
  deriving DecidableEq, Repr

/-- The AMI interpolator: per-face addressing and weights. -/
structure AMIInterpolation where
  srcAddress : List (List label)
  srcWeights : List (List scalar)
  deriving DecidableEq

/-- The patch-to-patch intersection engine: per-face addressing. -/
structure patchToPatch where
  srcLocalTgtFaces : List (List label)
  deriving DecidableEq, Repr

/-- The projection surface employed by the AMI interpolator. -/
structure searchableSurface where
  name : word
  deriving DecidableEq, Repr

/-- A dictionary: keyword and value pairs. -/
abbrev dictionary := List (word × String)

/-- The data members of `mappedPatchBase`, in the order of the header. The
reference `patch_` is not a value of the object: its referent is
`World.patch`. An `autoPtr` is an `Option`. -/
structure mappedPatchBase where
  sampleRegion_ : word
  sameRegion_ : Bool
  mode_ : sampleMode
  samplePatch_ : word
  coupleGroup_ : coupleGroupIdentifier
  offsetMode_ : offsetMode
  distance_ : scalar
  offset_ : vector
  mapPtr_ : Option distributionMap
  mapIndices_ : List label
  AMIPtr_ : Option AMIInterpolation
  AMIReverse_ : Bool
  surfPtr_ : Option searchableSurface
  surfDict_ : dictionary
  patchToPatchIsValid_ : Bool
  patchToPatchPtr_ : Option patchToPatch
  deriving DecidableEq

/-- One face of the local patch: its centre and its outward unit normal. -/
structure patchFace where
  centre : vector
  normal : vector
  deriving DecidableEq

/-- Everything outside the object that its members read or call.

* `patch`, `meshName`, `faces`: the referent of `patch_`, the name of the mesh
  that owns it (`patch_.boundaryMesh().mesh().name()`) and its faces.
* `findOtherPatchID`: `coupleGroupIdentifier::findOtherPatchID(patch_, region)`;
  `none` when it ends in a fatal error, otherwise the patch index it returns
  and the region name it writes into its second argument.
* `lookupMesh`: the registry lookup `lookupObject<polyMesh>(name)`.
* `samplePolyPatch`: the member `samplePolyPatch()`; `none` when it fails,
  otherwise the patch and the object afterwards.
* `calcMapping`: the member `calcMapping()`; `none` when it fails, otherwise
  the object afterwards. -/
structure World where
  patch : polyPatch
  meshName : word
  faces : List patchFace
  findOtherPatchID : coupleGroupIdentifier → Option (label × word)
  lookupMesh : word → Option polyMesh
  samplePolyPatch : mappedPatchBase → Option (polyPatch × mappedPatchBase)
  calcMapping : mappedPatchBase → Option mappedPatchBase

/-- The fatal errors a member can end in, one per place that raises it.
`supplyRegionOrCoupleGroup p r` is the error of `sampleRegion()` itself, with
the text "Supply either a regionName or a coupleGroup for patch p in region r";
the others are raised inside a collaborator: `findOtherPatchID`, the registry
lookup, indexing the boundary mesh, `samplePolyPatch`, `calcMapping`, and
dereferencing an `autoPtr` that holds nothing. -/
inductive FatalError where
  | supplyRegionOrCoupleGroup (patchName regionName : word)
  | coupleGroupLookup
  | sampleMeshLookup (regionName : word)
  | patchIndexOutOfRange (index : label)
  | samplePolyPatchFailed
  | calcMappingFailed
  | autoPtrNotAllocated
  deriving DecidableEq, Repr

/-- The collaborators whose invocation is recorded. -/
inductive Call where
  | findOtherPatchID
  | sampleMesh
  | samplePolyPatch
  | calcMapping
  deriving DecidableEq, Repr

/-- What one call of a member does: the collaborators it invoked, in order,
and either the fatal error it ended in or the value it returned together with
the object afterwards. -/
structure Outcome (α : Type) where
  calls : List Call
  result : Except FatalError (α × mappedPatchBase)

/-- Element `i` of a boundary mesh, `boundaryMesh()[i]`; no element for an
index out of range. -/
def patchAt (boundary : List polyPatch) (i : label) : Option polyPatch :=
  if 0 ≤ i then boundary.get? i.toNat else none

/-! ## Members (`mappedPatchBaseI.H`) -/

/-- Modelled from the spec: `sampleMesh()` is defined in `mappedPatchBase.C`,
which lies outside the files covered here. "Get the region mesh": the mesh
registered under the stored sample-region name. -/
def sampleMesh (w : World) (s : mappedPatchBase) : Option polyMesh :=
  w.lookupMesh s.sampleRegion_

/-- Region to sample: `mappedPatchBase::sampleRegion()`. -/
def sampleRegion (w : World) (s : mappedPatchBase) : Outcome word :=
  if s.sampleRegion_ = "" then
    if s.coupleGroup_.valid = false then
      ⟨[], .error (.supplyRegionOrCoupleGroup w.patch.name w.meshName)⟩
    else
      match w.findOtherPatchID s.coupleGroup_ with
      | none => ⟨[.findOtherPatchID], .error .coupleGroupLookup⟩
      | some (samplePatchID, otherRegion) =>
        let s1 := { s with sampleRegion_ := otherRegion }
        let s2 := { s1 with sameRegion_ := decide (s1.sampleRegion_ = w.meshName) }
        match sampleMesh w s2 with
        | none =>
          ⟨[.findOtherPatchID, .sampleMesh], .error (.sampleMeshLookup s2.sampleRegion_)⟩
        | some mesh =>
          match patchAt mesh.boundaryMesh samplePatchID with
          | none =>
            ⟨[.findOtherPatchID, .sampleMesh], .error (.patchIndexOutOfRange samplePatchID)⟩
          | some p =>
            let s3 := { s2 with samplePatch_ := p.name }
            ⟨[.findOtherPatchID, .sampleMesh], .ok (s3.sampleRegion_, s3)⟩
  else
    ⟨[], .ok (s.sampleRegion_, s)⟩

/-- Patch to sample: `mappedPatchBase::samplePatch()`. -/
def samplePatch (w : World) (s : mappedPatchBase) : Outcome word :=
  if s.samplePatch_ = "" then
    match sampleRegion w s with
    | ⟨cs, .error e⟩ => ⟨cs, .error e⟩
    | ⟨cs, .ok (_, s1)⟩ => ⟨cs, .ok (s1.samplePatch_, s1)⟩
  else
    ⟨[], .ok (s.samplePatch_, s)⟩

/-- Cached same-region flag: `mappedPatchBase::sameRegion()`. -/
def sameRegion (s : mappedPatchBase) : Outcome Bool :=
  ⟨[], .ok (s.sameRegion_, s)⟩

/-- Distributor: `mappedPatchBase::map()`. Dereferencing an `autoPtr` that
holds nothing is a fatal error. -/
def map (w : World) (s : mappedPatchBase) : Outcome distributionMap :=
  if s.mapPtr_ = none then
    match w.calcMapping s with
    | none => ⟨[.calcMapping], .error .calcMappingFailed⟩
    | some s1 =>
      match s1.mapPtr_ with
      | none => ⟨[.calcMapping], .error .autoPtrNotAllocated⟩
      | some m => ⟨[.calcMapping], .ok (m, s1)⟩
  else
    match s.mapPtr_ with
    | none => ⟨[], .error .autoPtrNotAllocated⟩
    | some m => ⟨[], .ok (m, s)⟩

/-- Map pre-addressing: `mappedPatchBase::mapIndices()`. -/
def mapIndices (w : World) (s : mappedPatchBase) : Outcome (List label) :=
  if s.mapPtr_ = none then
    match w.calcMapping s with
    | none => ⟨[.calcMapping], .error .calcMappingFailed⟩
    | some s1 => ⟨[.calcMapping], .ok (s1.mapIndices_, s1)⟩
  else
    ⟨[], .ok (s.mapIndices_, s)⟩

/-- Whether the sample patch (if any) is of mapped type:
`mappedPatchBase::sampleIsMappedPatch()`. -/
def sampleIsMappedPatch (w : World) (s : mappedPatchBase) : Outcome Bool :=
  match s.mode_ with
  | .NEARESTCELL => ⟨[], .ok (false, s)⟩
  | .NEARESTFACE => ⟨[], .ok (false, s)⟩
  | .NEARESTPATCHFACE | .NEARESTPATCHFACEAMI | .PATCHTOPATCH =>
    match w.samplePolyPatch s with
    | none => ⟨[.samplePolyPatch], .error .samplePolyPatchFailed⟩
    | some (p, s1) => ⟨[.samplePolyPatch], .ok (p.isMappedPatchBase, s1)⟩

/-- Modelled from the spec: `samplePoints()` is defined in `mappedPatchBase.C`,
which lies outside the files covered here. One sample point per local face:
offset mode `none` leaves the face centre unchanged, `normal` advances it the
scalar distance along that face's outward normal, `direction` advances it by
the offset vector. -/
def samplePoints (w : World) (s : mappedPatchBase) : List vector :=
  match s.offsetMode_ with
  | .NONE => w.faces.map (fun f => f.centre)
  | .NORMAL => w.faces.map (fun f => f.centre.add (vector.scale s.distance_ f.normal))
  | .DIRECTION => w.faces.map (fun f => f.centre.add s.offset_)

/-- Dot product of two vectors. -/
def vector.dot (a b : vector) : scalar :=
  a.x * b.x + a.y * b.y + a.z * b.z

/-- The two accessors that resolve the target. -/
inductive Accessor where
  | sampleRegion
  | samplePatch
  deriving DecidableEq, Repr

/-- One call of an accessor. -/
def Accessor.run (w : World) (s : mappedPatchBase) : Accessor → Outcome word
  | .sampleRegion => Foam.sampleRegion w s
  | .samplePatch => Foam.samplePatch w s

/-- A sequence of accessor calls, each in the world of its time; `none` as
soon as one of them ends in a fatal error, otherwise the object afterwards. -/
def runAccessors : List (World × Accessor) → mappedPatchBase → Option mappedPatchBase
  | [], s => some s
  | (w, a) :: rest, s =>
    match (a.run w s).result with
    | .error _ => none
    | .ok (_, s1) => runAccessors rest s1

/-- Every patch of every registered mesh has a non-empty name. -/
def World.patchesNamed (w : World) : Prop :=
  ∀ r mesh q, w.lookupMesh r = some mesh → q ∈ mesh.boundaryMesh → q.name ≠ ""

/-! ## Example objects and worlds -/

/-- A world of two regions: the local patch `baffle_master` of `region0`,
coupled through its group to patch 1 of region `solid`. -/
def exWorld : World where
  patch := ⟨"baffle_master", true⟩
  meshName := "region0"
  faces := [⟨⟨1, 2, 3⟩, ⟨0, 0, 1⟩⟩, ⟨⟨4, 5, 6⟩, ⟨0, 0, 1⟩⟩]
  findOtherPatchID := fun g => if g.valid then some (1, "solid") else none
  lookupMesh := fun r =>
    if r = "solid" then some ⟨"solid", [⟨"walls", false⟩, ⟨"baffle_slave", true⟩]⟩
    else if r = "region0" then some ⟨"region0", [⟨"inlet", false⟩, ⟨"baffle_master", true⟩]⟩
    else none
  samplePolyPatch := fun s =>
    if s.samplePatch_ = "baffle_slave" then some (⟨"baffle_slave", true⟩, s) else none
  calcMapping := fun s =>
    some { s with mapPtr_ := some ⟨2, [[0, 1]], [[0, 1]]⟩, mapIndices_ := [0, 1] }

/-- The world `exWorld` after the owning mesh has been renamed to `solid`. -/
def exWorldRenamed : World :=
  { exWorld with meshName := "solid" }

/-- An object configured by couple group only: no region, no patch. -/
def exByGroup : mappedPatchBase where
  sampleRegion_ := ""
  sameRegion_ := false
  mode_ := .NEARESTPATCHFACE
  samplePatch_ := ""
  coupleGroup_ := ⟨"baffleGroup", true⟩
  offsetMode_ := .NORMAL
  distance_ := -1
  offset_ := ⟨0, 0, 0⟩
  mapPtr_ := none
  mapIndices_ := []
  AMIPtr_ := none
  AMIReverse_ := false
  surfPtr_ := none
  surfDict_ := []
  patchToPatchIsValid_ := false
  patchToPatchPtr_ := none

/-- The object `exByGroup` after its target has been resolved in `exWorld`. -/
def exResolved : mappedPatchBase :=
  { exByGroup with sampleRegion_ := "solid", sameRegion_ := false, samplePatch_ := "baffle_slave" }

/-- The object `exByGroup` after `calcMapping` of `exWorld` has run on it. -/
def exMapped : mappedPatchBase :=
  { exByGroup with mapPtr_ := some ⟨2, [[0, 1]], [[0, 1]]⟩, mapIndices_ := [0, 1] }

/-- An object configured by region name only, in mode `nearestCell`: the
region is given, no patch is. -/
def exByRegion : mappedPatchBase :=
  { exByGroup with
    sampleRegion_ := "region0", sameRegion_ := true, mode_ := .NEARESTCELL,
    coupleGroup_ := ⟨"", false⟩ }

/-- An object configured with a patch name and a couple group, but no region. -/
def exPatchAndGroup : mappedPatchBase :=
  { exByGroup with samplePatch_ := "walls" }

/-- A world of one region: the local patch `baffle_master` of `region0` is
coupled through its group to patch 2 of the same region. -/
def exWorldBaffle : World where
  patch := ⟨"baffle_master", true⟩
  meshName := "region0"
  faces := [⟨⟨1, 2, 3⟩, ⟨0, 0, 1⟩⟩]
  findOtherPatchID := fun g => if g.valid then some (2, "region0") else none
  lookupMesh := fun r =>
    if r = "region0" then
      some ⟨"region0", [⟨"inlet", false⟩, ⟨"baffle_master", true⟩, ⟨"baffle_slave", true⟩]⟩
    else none
  samplePolyPatch := fun s =>
    if s.samplePatch_ = "baffle_slave" then some (⟨"baffle_slave", true⟩, s) else none
  calcMapping := fun s =>
    some { s with mapPtr_ := some ⟨1, [[0]], [[0]]⟩, mapIndices_ := [0] }

/-- The object `exByGroup` after its target has been resolved in
`exWorldBaffle`. -/
def exResolvedBaffle : mappedPatchBase :=
  { exByGroup with
    sampleRegion_ := "region0", sameRegion_ := true, samplePatch_ := "baffle_slave" }

/-! ## Properties -/

/-- With a stored region name, `sampleRegion()` is a plain read. -/
theorem sampleRegion_of_stored (w : World) (s : mappedPatchBase)
    (h : s.sampleRegion_ ≠ "") :
    sampleRegion w s = ⟨[], .ok (s.sampleRegion_, s)⟩ := by
  simp [sampleRegion, h]

/-- What a successful `sampleRegion()` did when no region name was stored. -/
theorem sampleRegion_of_resolved (w : World) (s s1 : mappedPatchBase) (r : word)
    (hr : s.sampleRegion_ = "") (hok : (sampleRegion w s).result = .ok (r, s1)) :
    s.coupleGroup_.valid = true ∧
    ∃ id mesh p,
      w.findOtherPatchID s.coupleGroup_ = some (id, r) ∧
      w.lookupMesh r = some mesh ∧
      patchAt mesh.boundaryMesh id = some p ∧
      s1 = { s with
              sampleRegion_ := r,
              sameRegion_ := decide (r = w.meshName),
              samplePatch_ := p.name } ∧
      (sampleRegion w s).calls = [.findOtherPatchID, .sampleMesh] := by
  cases hv : s.coupleGroup_.valid with
  | false => simp [sampleRegion, hr, hv] at hok
  | true =>
    refine ⟨rfl, ?_⟩
    cases hf : w.findOtherPatchID s.coupleGroup_ with
    | none => simp [sampleRegion, hr, hv, hf] at hok
    | some found =>
      obtain ⟨i, reg⟩ := found
      cases hm : w.lookupMesh reg with
      | none => simp [sampleRegion, sampleMesh, hr, hv, hf, hm] at hok
      | some mesh =>
        cases hp : patchAt mesh.boundaryMesh i with
        | none => simp [sampleRegion, sampleMesh, hr, hv, hf, hm, hp] at hok
        | some q =>
          simp only [sampleRegion, sampleMesh, hr, hv, hf, hm, hp, if_true,
            Bool.true_eq_false, if_false, Except.ok.injEq, Prod.mk.injEq] at hok
          obtain ⟨h1, h2⟩ := hok
          subst h1
          refine ⟨i, mesh, q, rfl, hm, hp, h2.symm, ?_⟩
          simp [sampleRegion, sampleMesh, hr, hv, hf, hm, hp]

/-- C1: `sampleRegion()` ends in its fatal configuration error "Supply either
a regionName or a coupleGroup", naming the local patch and its owning region,
exactly when the stored sample-region name is empty and the couple group is
not valid. -/
theorem sampleRegion_fatal_iff (w : World) (s : mappedPatchBase) :
    (sampleRegion w s).result
        = .error (.supplyRegionOrCoupleGroup w.patch.name w.meshName)
      ↔ (s.sampleRegion_ = "" ∧ s.coupleGroup_.valid = false) := by
  unfold sampleRegion
  by_cases hr : s.sampleRegion_ = ""
  · by_cases hv : s.coupleGroup_.valid = false
    · simp [hr, hv]
    · simp only [hr, hv, if_true, if_false, true_and]
      cases hf : w.findOtherPatchID s.coupleGroup_ with
      | none => simp
      | some found =>
        obtain ⟨i, reg⟩ := found
        simp only []
        cases hm : sampleMesh w _ with
        | none => simp
        | some mesh =>
          simp only []
          cases hp : patchAt mesh.boundaryMesh i with
          | none => simp
          | some p => simp
  · simp [hr]

/-- C2: with no stored region name and a valid couple group, a successful
`sampleRegion()` resolves region and patch together. It stores and returns the
region name reported by `findOtherPatchID`, stores the name of the patch at the
returned index in the boundary of that region's mesh, and a following
`samplePatch()` returns exactly that patch name. -/
theorem sampleRegion_resolves_together (w : World) (s s1 : mappedPatchBase) (r : word)
    (hr : s.sampleRegion_ = "") (hv : s.coupleGroup_.valid = true)
    (hok : (sampleRegion w s).result = .ok (r, s1)) :
    ∃ id mesh p,
      w.findOtherPatchID s.coupleGroup_ = some (id, r) ∧
      w.lookupMesh r = some mesh ∧
      patchAt mesh.boundaryMesh id = some p ∧
      s1.sampleRegion_ = r ∧
      s1.samplePatch_ = p.name ∧
      (samplePatch w s1).result = .ok (p.name, s1) := by
  obtain ⟨_, id, mesh, p, hf, hm, hp, hs, _⟩ := sampleRegion_of_resolved w s s1 r hr hok
  refine ⟨id, mesh, p, hf, hm, hp, by rw [hs], by rw [hs], ?_⟩
  by_cases hpn : p.name = ""
  · by_cases hrn : r = ""
    · subst hs
      subst hrn
      simp [samplePatch, sampleRegion, sampleMesh, hpn, hv, hf, hm, hp]
    · have hreg : s1.sampleRegion_ ≠ "" := by rw [hs]; exact hrn
      have hpat : s1.samplePatch_ = "" := by rw [hs]; exact hpn
      simp [samplePatch, hpat, sampleRegion_of_stored w s1 hreg, hpn]
  · have hpat : s1.samplePatch_ ≠ "" := by rw [hs]; exact hpn
    have hpat2 : s1.samplePatch_ = p.name := by rw [hs]
    simp only [samplePatch, hpat2, if_neg hpn]

/-- C2 at `exByGroup` in `exWorld`: the group resolves to region `solid` and
its patch 1, `baffle_slave`. -/
theorem sampleRegion_resolves_together_witness :
    ∃ id mesh p,
      exWorld.findOtherPatchID exByGroup.coupleGroup_ = some (id, "solid") ∧
      exWorld.lookupMesh "solid" = some mesh ∧
      patchAt mesh.boundaryMesh id = some p ∧
      exResolved.sampleRegion_ = "solid" ∧
      exResolved.samplePatch_ = p.name ∧
      (samplePatch exWorld exResolved).result = .ok (p.name, exResolved) :=
  sampleRegion_resolves_together exWorld exByGroup exResolved "solid" rfl rfl rfl

/-- C3, as stated, fails: in `exWorld` the object `exByRegion` (region given,
no patch, mode `nearestCell`) has `samplePatch()` succeed with the empty name,
without any collaborator call and without a change to the object. -/
theorem samplePatch_returns_empty_name :
    samplePatch exWorld exByRegion = ⟨[], .ok ("", exByRegion)⟩ ∧
      ¬ ((∃ e, (samplePatch exWorld exByRegion).result = .error e) ∨
          ∃ p s1, (samplePatch exWorld exByRegion).result = .ok (p, s1) ∧ p ≠ "") := by
  have h : samplePatch exWorld exByRegion = ⟨[], .ok ("", exByRegion)⟩ := rfl
  refine ⟨h, ?_⟩
  rw [h]
  rintro (⟨e, he⟩ | ⟨p, s1, hp, hne⟩)
  · cases he
  · simp only [Except.ok.injEq, Prod.mk.injEq] at hp
    exact hne hp.1.symm

/-- C3, amended: `samplePatch()` fails or returns a non-empty name whenever a
patch name is stored, or no region name is stored and every patch of every
registered mesh is named; with a stored region name and no stored patch name it
succeeds with the empty name and leaves the object unchanged. -/
theorem samplePatch_nonempty_or_fails (w : World) (s : mappedPatchBase) :
    ((s.samplePatch_ ≠ "" ∨ (s.sampleRegion_ = "" ∧ w.patchesNamed)) →
      ((∃ e, (samplePatch w s).result = .error e) ∨
        ∃ p s1, (samplePatch w s).result = .ok (p, s1) ∧ p ≠ "")) ∧
    (s.samplePatch_ = "" → s.sampleRegion_ ≠ "" →
      samplePatch w s = ⟨[], .ok ("", s)⟩) := by
  constructor
  · intro h
    by_cases hp : s.samplePatch_ = ""
    · rcases h with h | ⟨hr, hn⟩
      · exact absurd hp h
      · cases hres : (sampleRegion w s).result with
        | error e =>
          left
          refine ⟨e, ?_⟩
          unfold samplePatch
          rw [if_pos hp]
          revert hres
          cases sampleRegion w s with
          | mk cs res =>
            intro hres
            simp only at hres
            subst hres
            rfl
        | ok v =>
          obtain ⟨r, s1⟩ := v
          right
          obtain ⟨_, id, mesh, q, _, hm, hq, hs, _⟩ :=
            sampleRegion_of_resolved w s s1 r hr hres
          refine ⟨q.name, s1, ?_, ?_⟩
          · unfold samplePatch
            rw [if_pos hp]
            revert hres
            cases sampleRegion w s with
            | mk cs res =>
              intro hres
              simp only at hres
              subst hres
              simp only [hs]
          · apply hn r mesh q hm
            unfold patchAt at hq
            split at hq
            · exact List.get?_mem hq
            · cases hq
    · right
      exact ⟨s.samplePatch_, s, by simp [samplePatch, hp], hp⟩
  · intro hp hr
    simp [samplePatch, hp, sampleRegion_of_stored w s hr]

/-- C3, amended, at `exByGroup` in `exWorld` (all patches named), and at
`exByRegion`, which gets the empty name. -/
theorem samplePatch_nonempty_or_fails_witness :
    ((∃ e, (samplePatch exWorld exByGroup).result = .error e) ∨
        ∃ p s1, (samplePatch exWorld exByGroup).result = .ok (p, s1) ∧ p ≠ "") ∧
      samplePatch exWorld exByRegion = ⟨[], .ok ("", exByRegion)⟩ :=
  ⟨(samplePatch_nonempty_or_fails exWorld exByGroup).1
      (Or.inr ⟨rfl, by
        intro r mesh q hm hq
        simp only [exWorld] at hm
        split at hm
        · cases hm
          simp only [List.mem_cons, List.mem_singleton, List.not_mem_nil, or_false] at hq
          rcases hq with h | h <;> subst h <;> decide
        · split at hm
          · cases hm
            simp only [List.mem_cons, List.mem_singleton, List.not_mem_nil, or_false] at hq
            rcases hq with h | h <;> subst h <;> decide
          · cases hm⟩),
    (samplePatch_nonempty_or_fails exWorld exByRegion).2 rfl (by decide)⟩

/-- C4: after `sampleRegion()` has successfully resolved the target through the
couple group, `sameRegion()` returns true exactly when the resolved region name
equals the name of the mesh that owns the local patch. -/
theorem sameRegion_after_resolution (w : World) (s s1 : mappedPatchBase) (r : word)
    (hr : s.sampleRegion_ = "") (hok : (sampleRegion w s).result = .ok (r, s1)) :
    ∃ b, sameRegion s1 = ⟨[], .ok (b, s1)⟩ ∧ (b = true ↔ r = w.meshName) := by
  obtain ⟨_, id, mesh, p, _, _, _, hs, _⟩ := sampleRegion_of_resolved w s s1 r hr hok
  refine ⟨s1.sameRegion_, rfl, ?_⟩
  rw [hs]
  simp

/-- C4 at `exByGroup` in `exWorld`: the resolved region `solid` is not the
owning region `region0`, and the flag is false. -/
theorem sameRegion_after_resolution_witness :
    ∃ b, sameRegion exResolved = ⟨[], .ok (b, exResolved)⟩ ∧
      (b = true ↔ "solid" = exWorld.meshName) :=
  sameRegion_after_resolution exWorld exByGroup exResolved "solid" rfl rfl

/-- C5: with a stored region name, `sampleRegion()` returns that name, calls no
collaborator (no couple-group lookup) and leaves the object unchanged, whatever
the couple group; hence after a call that returned a non-empty region name, a
second call, in any world, returns the same name and leaves the object, its
same-region flag included, as it is. -/
theorem sampleRegion_stored_is_frame (w : World) (s : mappedPatchBase) :
    (s.sampleRegion_ ≠ "" → sampleRegion w s = ⟨[], .ok (s.sampleRegion_, s)⟩) ∧
    (∀ r s1, (sampleRegion w s).result = .ok (r, s1) → r ≠ "" →
      ∀ w2 : World, sampleRegion w2 s1 = ⟨[], .ok (r, s1)⟩) := by
  refine ⟨sampleRegion_of_stored w s, ?_⟩
  intro r s1 hok hne w2
  have hreg : s1.sampleRegion_ = r := by
    by_cases hr : s.sampleRegion_ = ""
    · obtain ⟨_, id, mesh, p, _, _, _, hs, _⟩ := sampleRegion_of_resolved w s s1 r hr hok
      rw [hs]
    · rw [sampleRegion_of_stored w s hr] at hok
      simp only [Except.ok.injEq, Prod.mk.injEq] at hok
      rw [← hok.2]
      exact hok.1
  have h := sampleRegion_of_stored w2 s1 (by rw [hreg]; exact hne)
  rw [hreg] at h
  exact h

/-- C5 at `exResolved`, whose couple group is valid, and at the resolution of
`exByGroup` followed by a second call after the owning mesh has been renamed
to `solid`: same name, flag still false. -/
theorem sampleRegion_stored_is_frame_witness :
    sampleRegion exWorld exResolved = ⟨[], .ok ("solid", exResolved)⟩ ∧
      exResolved.coupleGroup_.valid = true ∧
      sampleRegion exWorldRenamed exResolved = ⟨[], .ok ("solid", exResolved)⟩ ∧
      exResolved.sameRegion_ = false :=
  ⟨(sampleRegion_stored_is_frame exWorld exResolved).1 (by decide), rfl,
    (sampleRegion_stored_is_frame exWorld exByGroup).2 "solid" exResolved rfl (by decide)
      exWorldRenamed, rfl⟩

/-- The name a successful `samplePatch()` returns is the one stored afterwards. -/
theorem samplePatch_returns_stored (w : World) (s s1 : mappedPatchBase) (p : word)
    (hok : (samplePatch w s).result = .ok (p, s1)) : s1.samplePatch_ = p := by
  unfold samplePatch at hok
  by_cases hp : s.samplePatch_ = ""
  · rw [if_pos hp] at hok
    revert hok
    cases sampleRegion w s with
    | mk cs res =>
      cases res with
      | error e => intro hok; cases hok
      | ok v =>
        obtain ⟨r, s2⟩ := v
        intro hok
        simp only [Except.ok.injEq, Prod.mk.injEq] at hok
        rw [← hok.2]
        exact hok.1
  · rw [if_neg hp] at hok
    simp only [Except.ok.injEq, Prod.mk.injEq] at hok
    rw [← hok.2]
    exact hok.1

/-- With a stored patch name, `samplePatch()` is a plain read. -/
theorem samplePatch_of_stored (w : World) (s : mappedPatchBase)
    (h : s.samplePatch_ ≠ "") :
    samplePatch w s = ⟨[], .ok (s.samplePatch_, s)⟩ := by
  simp [samplePatch, h]

/-- C6, as stated, fails: `exPatchAndGroup` stores the patch name `walls`, no
region name and a valid couple group. `samplePatch()` returns `walls`; a later
successful `sampleRegion()` replaces the stored patch name by the one found
through the couple group, and `samplePatch()` then returns `baffle_slave`. -/
theorem samplePatch_changed_by_sampleRegion :
    samplePatch exWorld exPatchAndGroup = ⟨[], .ok ("walls", exPatchAndGroup)⟩ ∧
      (sampleRegion exWorld exPatchAndGroup).result = .ok ("solid", exResolved) ∧
      samplePatch exWorld exResolved = ⟨[], .ok ("baffle_slave", exResolved)⟩ ∧
      "walls" ≠ "baffle_slave" :=
  ⟨rfl, rfl, rfl, by decide⟩

/-- C6, amended: when `samplePatch()` returns a non-empty name and the object
then stores a region name, or its couple group is not valid, every later
sequence of successful `sampleRegion()` and `samplePatch()` calls, in whatever
worlds, leaves the object unchanged, and `samplePatch()` keeps returning that
name. -/
theorem samplePatch_name_stable (w : World) (s s1 : mappedPatchBase) (p : word)
    (hok : (samplePatch w s).result = .ok (p, s1)) (hp : p ≠ "")
    (hcfg : s1.sampleRegion_ ≠ "" ∨ s1.coupleGroup_.valid = false) :
    ∀ (later : List (World × Accessor)) (s2 : mappedPatchBase),
      runAccessors later s1 = some s2 →
        s2 = s1 ∧ ∀ w2 : World, samplePatch w2 s2 = ⟨[], .ok (p, s2)⟩ := by
  have hst : s1.samplePatch_ = p := samplePatch_returns_stored w s s1 p hok
  have hne : s1.samplePatch_ ≠ "" := by rw [hst]; exact hp
  intro later
  induction later with
  | nil =>
    intro s2 h
    simp only [runAccessors, Option.some.injEq] at h
    subst h
    refine ⟨rfl, fun w2 => ?_⟩
    rw [samplePatch_of_stored w2 s1 hne, hst]
  | cons c rest ih =>
    intro s2 h
    obtain ⟨wc, a⟩ := c
    cases a with
    | samplePatch =>
      simp only [runAccessors, Accessor.run, samplePatch_of_stored wc s1 hne] at h
      exact ih s2 h
    | sampleRegion =>
      by_cases hr : s1.sampleRegion_ = ""
      · rcases hcfg with hc | hc
        · exact absurd hr hc
        · simp [runAccessors, Accessor.run, sampleRegion, hr, hc] at h
      · simp only [runAccessors, Accessor.run, sampleRegion_of_stored wc s1 hr] at h
        exact ih s2 h

/-- C6, amended, at `exResolved`: after `samplePatch()` has returned
`baffle_slave`, a `sampleRegion()` in the renamed world and a `samplePatch()`
leave the object and the returned name as they are. -/
theorem samplePatch_name_stable_witness :
    exResolved = exResolved ∧
      ∀ w2 : World, samplePatch w2 exResolved = ⟨[], .ok ("baffle_slave", exResolved)⟩ :=
  samplePatch_name_stable exWorld exResolved exResolved "baffle_slave" rfl (by decide)
    (Or.inl (by decide))
    [(exWorldRenamed, Accessor.sampleRegion), (exWorld, Accessor.samplePatch)] exResolved rfl

/-- C7: `map()` invokes `calcMapping` exactly when no distribution map is
cached; with a cached map it returns that map, calls nothing and leaves the
object unchanged; so, when `calcMapping` stores a map, the first `map()` runs
it once and returns the stored map, and a second `map()`, in any world, returns
the same map without running it. -/
theorem map_builds_lazily (w : World) (s : mappedPatchBase) :
    (Call.calcMapping ∈ (map w s).calls ↔ s.mapPtr_ = none) ∧
    (∀ m, s.mapPtr_ = some m → map w s = ⟨[], .ok (m, s)⟩) ∧
    (∀ s1 m, s.mapPtr_ = none → w.calcMapping s = some s1 → s1.mapPtr_ = some m →
      map w s = ⟨[.calcMapping], .ok (m, s1)⟩ ∧
        ∀ w2 : World, map w2 s1 = ⟨[], .ok (m, s1)⟩) := by
  refine ⟨?_, ?_, ?_⟩
  · cases hm : s.mapPtr_ with
    | none =>
      simp only [map, hm, if_true, iff_true]
      cases hc : w.calcMapping s with
      | none => simp
      | some s1 =>
        cases hm1 : s1.mapPtr_ with
        | none => simp [hm1]
        | some m => simp [hm1]
    | some m => simp [map, hm]
  · intro m hm
    simp [map, hm]
  · intro s1 m hm hc hm1
    constructor
    · simp [map, hm, hc, hm1]
    · intro w2
      simp [map, hm1]

/-- C7 at `exByGroup` in `exWorld`: the first `map()` builds, the second
reuses. -/
theorem map_builds_lazily_witness :
    map exWorld exMapped = ⟨[], .ok (⟨2, [[0, 1]], [[0, 1]]⟩, exMapped)⟩ ∧
      map exWorld exByGroup = ⟨[.calcMapping], .ok (⟨2, [[0, 1]], [[0, 1]]⟩, exMapped)⟩ ∧
      ∀ w2 : World, map w2 exMapped = ⟨[], .ok (⟨2, [[0, 1]], [[0, 1]]⟩, exMapped)⟩ :=
  ⟨(map_builds_lazily exWorld exMapped).2.1 _ rfl,
    (map_builds_lazily exWorld exByGroup).2.2 exMapped _ rfl rfl rfl⟩

/-- C8: `samplePoints()` has one point per local face, and for every face it is
the face centre when the offset mode is `none`; the centre plus distance times
the face's normal when the mode is `normal`, so that a negative distance
displaces against a non-zero outward normal, and distance -1 with normal
(0,0,1) gives the centre minus (0,0,1); the centre plus the offset vector when
the mode is `direction`. -/
theorem samplePoints_offset (w : World) (s : mappedPatchBase) (i : Nat) (f : patchFace)
    (hf : w.faces.get? i = some f) :
    (samplePoints w s).length = w.faces.length ∧
    (s.offsetMode_ = .NONE → (samplePoints w s).get? i = some f.centre) ∧
    (s.offsetMode_ = .NORMAL →
      (samplePoints w s).get? i = some (f.centre.add (vector.scale s.distance_ f.normal)) ∧
      (s.distance_ < 0 → f.normal ≠ ⟨0, 0, 0⟩ →
        ((f.centre.add (vector.scale s.distance_ f.normal)).sub f.centre).dot f.normal < 0) ∧
      (s.distance_ = -1 → f.normal = ⟨0, 0, 1⟩ →
        (samplePoints w s).get? i = some (f.centre.sub ⟨0, 0, 1⟩))) ∧
    (s.offsetMode_ = .DIRECTION →
      (samplePoints w s).get? i = some (f.centre.add s.offset_)) := by
  have hnormal : s.offsetMode_ = .NORMAL →
      (samplePoints w s).get? i
        = some (f.centre.add (vector.scale s.distance_ f.normal)) := by
    intro hm
    simp only [samplePoints, hm, List.get?_eq_getElem?, List.getElem?_map]
    rw [← List.get?_eq_getElem?, hf]
    rfl
  refine ⟨?_, ?_, ?_, ?_⟩
  · unfold samplePoints
    cases s.offsetMode_ <;> simp
  · intro hm
    simp only [samplePoints, hm, List.get?_eq_getElem?, List.getElem?_map]
    rw [← List.get?_eq_getElem?, hf]
    rfl
  · intro hm
    refine ⟨hnormal hm, ?_, ?_⟩
    · intro hd hn
      obtain ⟨c, n⟩ := f
      obtain ⟨nx, ny, nz⟩ := n
      simp only [vector.add, vector.scale, vector.sub, vector.dot]
      have hpos : 0 < nx * nx + ny * ny + nz * nz := by
        by_contra hcon
        have hx : nx = 0 := by nlinarith [mul_self_nonneg nx, mul_self_nonneg ny, mul_self_nonneg nz]
        have hy : ny = 0 := by nlinarith [mul_self_nonneg nx, mul_self_nonneg ny, mul_self_nonneg nz]
        have hz : nz = 0 := by nlinarith [mul_self_nonneg nx, mul_self_nonneg ny, mul_self_nonneg nz]
        apply hn
        simp [hx, hy, hz]
      have hprod : s.distance_ * (nx * nx + ny * ny + nz * nz) < 0 :=
        mul_neg_of_neg_of_pos hd hpos
      have heq : (c.x + s.distance_ * nx - c.x) * nx + (c.y + s.distance_ * ny - c.y) * ny
            + (c.z + s.distance_ * nz - c.z) * nz
          = s.distance_ * (nx * nx + ny * ny + nz * nz) := by ring
      rw [heq]
      exact hprod
    · intro hd hn
      rw [hnormal hm, hd, hn]
      simp only [vector.add, vector.scale, vector.sub, Option.some.injEq, vector.mk.injEq]
      refine ⟨by ring, by ring, by ring⟩
  · intro hm
    simp only [samplePoints, hm, List.get?_eq_getElem?, List.getElem?_map]
    rw [← List.get?_eq_getElem?, hf]
    rfl

/-- C8 at `exWorld`. Face 0, centre (1,2,3) and normal (0,0,1), for
`exByGroup`, whose mode is `normal` with distance -1: the sample point is the
centre minus (0,0,1). Face 1, centre (4,5,6), with mode `direction` and offset
(1,0,0), and with mode `none`. -/
theorem samplePoints_offset_witness :
    (samplePoints exWorld exByGroup).get? 0 = some (vector.sub ⟨1, 2, 3⟩ ⟨0, 0, 1⟩) ∧
      (samplePoints exWorld { exByGroup with offsetMode_ := .DIRECTION, offset_ := ⟨1, 0, 0⟩ }).get? 1
        = some (vector.add ⟨4, 5, 6⟩ ⟨1, 0, 0⟩) ∧
      (samplePoints exWorld { exByGroup with offsetMode_ := .NONE }).get? 1 = some ⟨4, 5, 6⟩ :=
  ⟨((samplePoints_offset exWorld exByGroup 0 ⟨⟨1, 2, 3⟩, ⟨0, 0, 1⟩⟩ rfl).2.2.1 rfl).2.2 rfl rfl,
    (samplePoints_offset exWorld _ 1 ⟨⟨4, 5, 6⟩, ⟨0, 0, 1⟩⟩ rfl).2.2.2 rfl,
    (samplePoints_offset exWorld _ 1 ⟨⟨4, 5, 6⟩, ⟨0, 0, 1⟩⟩ rfl).2.1 rfl⟩

/-- C9: `sampleIsMappedPatch()` returns true exactly when the mode is one of
`NEARESTPATCHFACE`, `NEARESTPATCHFACEAMI`, `PATCHTOPATCH` and the patch
`samplePolyPatch()` resolves is of mapped type; in the modes `NEARESTCELL` and
`NEARESTFACE` it returns false, calls nothing (the sample patch is not
resolved, so nothing can fail) and leaves the object unchanged. -/
theorem sampleIsMappedPatch_iff (w : World) (s : mappedPatchBase) :
    (∀ s1, (sampleIsMappedPatch w s).result = .ok (true, s1) ↔
      ((s.mode_ = .NEARESTPATCHFACE ∨ s.mode_ = .NEARESTPATCHFACEAMI
          ∨ s.mode_ = .PATCHTOPATCH) ∧
        ∃ p, w.samplePolyPatch s = some (p, s1) ∧ p.isMappedPatchBase = true)) ∧
    ((s.mode_ = .NEARESTCELL ∨ s.mode_ = .NEARESTFACE) →
      sampleIsMappedPatch w s = ⟨[], .ok (false, s)⟩) := by
  constructor
  · intro s1
    unfold sampleIsMappedPatch
    cases hm : s.mode_ <;> simp only [reduceCtorEq, false_or, or_false, or_true,
      true_or, true_and, false_and, iff_false, Except.ok.injEq, Prod.mk.injEq,
      Bool.false_eq_true, not_false_eq_true] <;>
    · cases hp : w.samplePolyPatch s with
      | none => simp
      | some v =>
        obtain ⟨q, s2⟩ := v
        simp only [Except.ok.injEq, Prod.mk.injEq, Option.some.injEq]
        constructor
        · rintro ⟨h1, h2⟩
          exact ⟨q, ⟨rfl, h2⟩, h1⟩
        · rintro ⟨q2, ⟨h1, h2⟩, h3⟩
          subst h1
          exact ⟨h3, h2⟩
  · rintro (hm | hm) <;> simp [sampleIsMappedPatch, hm]

/-- C9 at `exByRegion`, whose mode is `NEARESTCELL`. -/
theorem sampleIsMappedPatch_iff_witness :
    sampleIsMappedPatch exWorld exByRegion = ⟨[], .ok (false, exByRegion)⟩ :=
  (sampleIsMappedPatch_iff exWorld exByRegion).2 (Or.inl rfl)

/-- C10: `mapIndices()` invokes `calcMapping` exactly when no distribution map
is cached, whatever the index list holds; so, when `calcMapping` stores a map,
whichever of `map()` and `mapIndices()` is called first runs it once, both
return the map and the indices of the object that run produced, and the other
accessor, called after it in any world, returns its stored value without
running `calcMapping`. -/
theorem mapIndices_shares_build_trigger (w : World) (s : mappedPatchBase) :
    (Call.calcMapping ∈ (mapIndices w s).calls ↔ s.mapPtr_ = none) ∧
    (s.mapPtr_ ≠ none → mapIndices w s = ⟨[], .ok (s.mapIndices_, s)⟩) ∧
    (∀ s1 m, s.mapPtr_ = none → w.calcMapping s = some s1 → s1.mapPtr_ = some m →
      map w s = ⟨[.calcMapping], .ok (m, s1)⟩ ∧
      mapIndices w s = ⟨[.calcMapping], .ok (s1.mapIndices_, s1)⟩ ∧
      ∀ w2 : World,
        mapIndices w2 s1 = ⟨[], .ok (s1.mapIndices_, s1)⟩ ∧
        map w2 s1 = ⟨[], .ok (m, s1)⟩) := by
  refine ⟨?_, ?_, ?_⟩
  · cases hm : s.mapPtr_ with
    | none =>
      simp only [mapIndices, hm, if_true, iff_true]
      cases hc : w.calcMapping s with
      | none => simp
      | some s1 => simp
    | some m => simp [mapIndices, hm]
  · intro hm
    simp [mapIndices, hm]
  · intro s1 m hm hc hm1
    refine ⟨by simp [map, hm, hc, hm1], by simp [mapIndices, hm, hc], fun w2 => ?_⟩
    exact ⟨by simp [mapIndices, hm1], by simp [map, hm1]⟩

/-- C10 at `exByGroup` in `exWorld`: either accessor builds, the other then
reads. -/
theorem mapIndices_shares_build_trigger_witness :
    mapIndices exWorld exMapped = ⟨[], .ok ([0, 1], exMapped)⟩ ∧
      map exWorld exByGroup = ⟨[.calcMapping], .ok (⟨2, [[0, 1]], [[0, 1]]⟩, exMapped)⟩ ∧
      mapIndices exWorld exByGroup = ⟨[.calcMapping], .ok ([0, 1], exMapped)⟩ ∧
      ∀ w2 : World,
        mapIndices w2 exMapped = ⟨[], .ok ([0, 1], exMapped)⟩ ∧
        map w2 exMapped = ⟨[], .ok (⟨2, [[0, 1]], [[0, 1]]⟩, exMapped)⟩ :=
  ⟨(mapIndices_shares_build_trigger exWorld exMapped).2.1 (by decide),
    (mapIndices_shares_build_trigger exWorld exByGroup).2.2 exMapped _ rfl rfl rfl⟩

/-- C11: `sameRegion()` never resolves the target. For every object it returns
the stored same-region flag, calls no collaborator, cannot fail and leaves the
object unchanged; in particular so with no stored region name and a valid
couple group, where no couple-group lookup is made. Its result before the
first `sampleRegion()` or `samplePatch()` need not be its result after it:
`exByGroup` answers false, and true once either accessor has resolved it in
`exWorldBaffle`. -/
theorem sameRegion_never_resolves (s : mappedPatchBase) :
    sameRegion s = ⟨[], .ok (s.sameRegion_, s)⟩ ∧
    Call.findOtherPatchID ∉ (sameRegion s).calls ∧
    (s.sampleRegion_ = "" → s.coupleGroup_.valid = true →
      (sameRegion s).calls = [] ∧ (sameRegion s).result = .ok (s.sameRegion_, s)) ∧
    (∃ (w : World) (s0 s1 : mappedPatchBase) (r p : word),
      s0.sampleRegion_ = "" ∧ s0.coupleGroup_.valid = true ∧
      (sampleRegion w s0).result = .ok (r, s1) ∧
      (samplePatch w s0).result = .ok (p, s1) ∧
      (sameRegion s0).result = .ok (false, s0) ∧
      (sameRegion s1).result = .ok (true, s1)) := by
  refine ⟨rfl, ?_, fun _ _ => ⟨rfl, rfl⟩, ?_⟩
  · simp [sameRegion]
  · exact ⟨exWorldBaffle, exByGroup, exResolvedBaffle, "region0", "baffle_slave",
      rfl, rfl, rfl, rfl, rfl, rfl⟩

/-- C11 at `exByGroup`, which stores no region name and has a valid couple
group: the stored flag, false, is returned with no call. -/
theorem sameRegion_never_resolves_witness :
    (sameRegion exByGroup).calls = [] ∧
      (sameRegion exByGroup).result = .ok (false, exByGroup) :=
  (sameRegion_never_resolves exByGroup).2.2.1 rfl rfl

end Foam
